import Mathlib

/-!
Verification development for the autonomy-bootcamp worker pipeline.

Shallow embedding of the Python sources:
  src/bootcamp_main.py
  src/modules/command/command.py, command_worker.py
  src/modules/heartbeat/heartbeat_receiver.py, heartbeat_receiver_worker.py, heartbeat_sender.py
  src/modules/telemetry/telemetry.py, telemetry_worker.py

Conventions of the embedding:
  - Python floats are embedded as rationals; wall-clock reads of time.time()
    become explicit parameters.
  - MAVLink connections and loggers are external effects: a call that can
    raise OSError or a MAVLink error takes its outcome as a parameter, and
    logging is recorded in an event trace.
  - Queue operations of the multiprocessing queues are recorded as trace
    events carrying their blocking/timeout parameters as written in the
    source.
-/

namespace Bootcamp

/-- Transient protocol-level exceptions: OSError or a MAVLink error, the two
exception classes the source catches around protocol calls. -/
inductive ProtoErr where
  | osError
  | mavError
deriving DecidableEq, Repr

/-! ### Channel-operation descriptors

The channel operations appearing in the steady-state loops of the worker
bodies, read off the source with their blocking/timeout parameters.
A Python `queue.get(timeout=1.0)` blocks with a 1.0 second timeout;
a bare `queue.put(x)` blocks with no timeout. -/

/-- One channel operation with its blocking flag and optional timeout in
seconds. -/
inductive ChanOp where
  | get (block : Bool) (timeout : Option ℚ)
  | put (block : Bool) (timeout : Option ℚ)
deriving DecidableEq, Repr

/-- Whether the operation is a read from an input channel. -/
def ChanOp.isGet : ChanOp → Bool
  | .get _ _ => true
  | .put _ _ => false

/-- An operation is bounded when it is non-blocking or carries a timeout. -/
def ChanOp.bounded : ChanOp → Bool
  | .get b t => !b || t.isSome
  | .put b t => !b || t.isSome

/-- Channel operations in the steady-state loop of command_worker:
`input_queue.queue.get(timeout=1.0)` and `output_queue.queue.put(command_string)`. -/
def commandWorkerLoopChanOps : List ChanOp :=
  [.get true (some 1), .put true none]

/-- Channel operations in the steady-state loop of heartbeat_receiver_worker:
`output_queue.queue.put(status)`. The receiver has no input channel. -/
def heartbeatReceiverWorkerLoopChanOps : List ChanOp :=
  [.put true none]

/-- Channel operations in the steady-state loop of telemetry_worker:
`output_queue.queue.put(telemetry_data)`. The telemetry worker has no input
channel. -/
def telemetryWorkerLoopChanOps : List ChanOp :=
  [.put true none]

/-- All channel operations of the three worker loops together. -/
def allWorkerLoopChanOps : List ChanOp :=
  commandWorkerLoopChanOps ++ heartbeatReceiverWorkerLoopChanOps ++
    telemetryWorkerLoopChanOps

/-! ### HeartbeatReceiver (src/modules/heartbeat/heartbeat_receiver.py) -/

/-- Instance fields of HeartbeatReceiver set by `__init__`: the connection and
logger handles are external and omitted. -/
structure HeartbeatReceiverState where
  lastHeartbeatTime : ℚ
  missingCount : ℕ
  status : String
deriving DecidableEq, Repr

/-- Class attribute `max_threshold = 3`. -/
def HeartbeatReceiver.maxThreshold : ℕ := 3

/-- State built by `HeartbeatReceiver.__init__` at wall-clock time `now`. -/
def HeartbeatReceiver.initState (now : ℚ) : HeartbeatReceiverState :=
  { lastHeartbeatTime := now, missingCount := 0, status := "Disconnected" }

/-- Outcome of `self._connection.recv_match(type="HEARTBEAT", blocking=False,
timeout=1.0)`: a HEARTBEAT message, no message, or a raised OSError/MAVLink
error. -/
inductive RecvOutcome where
  | heartbeat
  | noMessage
  | protoError (e : ProtoErr)
deriving DecidableEq, Repr

/-- The shared tail of the try block of `HeartbeatReceiver.run`: if the missing
count has reached the threshold and the status is not already Disconnected,
set it to Disconnected (and log). -/
def HeartbeatReceiver.thresholdCheck (s : HeartbeatReceiverState) :
    HeartbeatReceiverState :=
  if HeartbeatReceiver.maxThreshold ≤ s.missingCount then
    if s.status ≠ "Disconnected" then { s with status := "Disconnected" } else s
  else s

/-- Embedding of `HeartbeatReceiver.run`. `now` is the value of `time.time()`
during the call; `outcome` is the result of the recv_match call. A raised
OSError/MAVLink error aborts the try block (skipping the threshold check),
is logged, and `self._status` is returned unchanged. -/
def HeartbeatReceiver.run (s : HeartbeatReceiverState) (outcome : RecvOutcome)
    (now : ℚ) : String × HeartbeatReceiverState :=
  match outcome with
  | .protoError _ => (s.status, s)
  | .heartbeat =>
      let s1 : HeartbeatReceiverState :=
        { s with lastHeartbeatTime := now, missingCount := 0, status := "Connected" }
      let s2 := HeartbeatReceiver.thresholdCheck s1
      (s2.status, s2)
  | .noMessage =>
      let s1 : HeartbeatReceiverState :=
        if 1 ≤ now - s.lastHeartbeatTime then
          { s with missingCount := s.missingCount + 1 }
        else s
      let s2 := HeartbeatReceiver.thresholdCheck s1
      (s2.status, s2)

/-! ### Telemetry (src/modules/telemetry/telemetry.py) -/

/-- Fields of an ATTITUDE MAVLink message used by the source. -/
structure AttitudeMsg where
  time_boot_ms : ℕ
  roll : ℚ
  pitch : ℚ
  yaw : ℚ
  rollspeed : ℚ
  pitchspeed : ℚ
  yawspeed : ℚ
deriving DecidableEq, Repr

/-- Fields of a LOCAL_POSITION_NED MAVLink message used by the source. -/
structure PositionMsg where
  time_boot_ms : ℕ
  x : ℚ
  y : ℚ
  z : ℚ
  vx : ℚ
  vy : ℚ
  vz : ℚ
deriving DecidableEq, Repr

/-- A message matched by `recv_match(type=["ATTITUDE", "LOCAL_POSITION_NED"])`. -/
inductive MavMsg where
  | attitude (m : AttitudeMsg)
  | position (m : PositionMsg)
deriving DecidableEq, Repr

/-- The TelemetryData struct. In the source every field defaults to None, but
`Telemetry.run` fills every field before returning an instance; we embed the
fully-filled form produced there. -/
structure TelemetryData where
  time_since_boot : ℕ
  x : ℚ
  y : ℚ
  z : ℚ
  x_velocity : ℚ
  y_velocity : ℚ
  z_velocity : ℚ
  roll : ℚ
  pitch : ℚ
  yaw : ℚ
  roll_speed : ℚ
  pitch_speed : ℚ
  yaw_speed : ℚ
deriving DecidableEq, Repr

/-- Instance fields of Telemetry set by `__init__` (connection and logger
handles omitted as external). -/
structure TelemetryState where
  lastPosition : Option PositionMsg
  lastAttitude : Option AttitudeMsg
deriving DecidableEq, Repr

/-- State built by `Telemetry.__init__`. -/
def Telemetry.initState : TelemetryState :=
  { lastPosition := none, lastAttitude := none }

/-- The TelemetryData built inside `Telemetry.run` once both a position and an
attitude are available. -/
def Telemetry.combine (p : PositionMsg) (a : AttitudeMsg) : TelemetryData :=
  { time_since_boot :=
      if a.time_boot_ms < p.time_boot_ms then p.time_boot_ms else a.time_boot_ms
    x := p.x, y := p.y, z := p.z
    x_velocity := p.vx, y_velocity := p.vy, z_velocity := p.vz
    roll := a.roll, pitch := a.pitch, yaw := a.yaw
    roll_speed := a.rollspeed, pitch_speed := a.pitchspeed
    yaw_speed := a.yawspeed }

/-- Embedding of the `while start_time < 1.0` loop of `Telemetry.run`.
`startTime` is the value of `time.time()` taken once at the top of `run`
(the guard compares this absolute timestamp against 1.0 on every iteration).
`msgs` supplies the successive results of the non-blocking recv_match call
(`none` = no message available at that poll); when the list is exhausted the
poll keeps returning no message. `fuel` bounds the number of iterations we
unfold; the source loop has no such bound, so exhausting the fuel returns
`none` (the iteration budget ran out before the source loop would have
returned). The third component of a returned triple is the part of `msgs`
not yet consumed. -/
def Telemetry.runLoop (startTime : ℚ) :
    ℕ → List (Option MavMsg) → TelemetryState →
    Option (Option TelemetryData × TelemetryState × List (Option MavMsg))
  | fuel, msgs, s =>
    if startTime < 1 then
      match fuel with
      | 0 => none
      | fuel' + 1 =>
        let msg := msgs.headD none
        let rest := msgs.tail
        let s1 : TelemetryState :=
          match msg with
          | some (.attitude a) => { s with lastAttitude := some a }
          | some (.position p) => { s with lastPosition := some p }
          | none => s
        match s1.lastPosition, s1.lastAttitude with
        | some p, some a =>
            some (some (Telemetry.combine p a),
              { lastPosition := none, lastAttitude := none }, rest)
        | _, _ => Telemetry.runLoop startTime fuel' rest s1
    else
      some (none, s, msgs)

/-- Embedding of `Telemetry.run`: take the start timestamp, then run the loop. -/
def Telemetry.run (startTime : ℚ) (fuel : ℕ) (msgs : List (Option MavMsg))
    (s : TelemetryState) :
    Option (Option TelemetryData × TelemetryState × List (Option MavMsg)) :=
  Telemetry.runLoop startTime fuel msgs s

/-! ### Command (src/modules/command/command.py) -/

/-- The 3D vector struct `Position`. -/
structure Position where
  x : ℚ
  y : ℚ
  z : ℚ
deriving DecidableEq, Repr

/-- Class attribute `ALTITUDE_THRESHOLD = 0.5` meters. -/
def Command.altitudeThreshold : ℚ := 1 / 2

/-- Class attribute `YAW_THRESHOLD_DEG = 5.0` degrees. -/
def Command.yawThresholdDeg : ℚ := 5

/-- Instance fields of Command set by `__init__` (connection and logger
handles omitted as external). -/
structure CommandState where
  target : Position
  previousTelemetryData : Option TelemetryData
  startPosition : Option Position
  startTime : ℚ
deriving DecidableEq, Repr

/-- State built by `Command.__init__` at wall-clock time `now`. -/
def Command.initState (target : Position) (now : ℚ) : CommandState :=
  { target := target, previousTelemetryData := none, startPosition := none
    startTime := now }

/-- The trigonometric float routines of the Python math module used by
`Command.run`. Floating point is not embeddable exactly, so the run embedding
is parametric in them; the claims settled here depend only on the branch
structure around their results. -/
structure MathOracle where
  atan2 : ℚ → ℚ → ℚ
  sin : ℚ → ℚ
  cos : ℚ → ℚ
  degrees : ℚ → ℚ

/-- The command messages `Command.run` formats and returns: the source returns
the strings "CHANGE ALTITUDE: {delta}" and "CHANGE YAW: {delta}"; we embed
them as tagged values carrying the delta. -/
inductive CommandMsg where
  | changeAltitude (delta : ℚ)
  | changeYaw (deltaDeg : ℚ)
deriving DecidableEq, Repr

/-- One attempted `command_long_send`, with whether it returned normally
(`true`) or raised an OSError/MAVLink error (`false`), plus a marker that
the yaw branch of `run` was reached and its condition computed. -/
inductive SendEvent where
  | altSend (ok : Bool)
  | yawEvaluated
  | yawSend (ok : Bool)
deriving DecidableEq, Repr

/-- Whether the event is a send that completed. -/
def SendEvent.isIssued : SendEvent → Bool
  | .altSend ok => ok
  | .yawSend ok => ok
  | .yawEvaluated => false

/-- The normalized yaw error in degrees computed by `Command.run`:
atan2 toward the target, difference with the current yaw, renormalization
into the principal range via atan2 of sin and cos, then conversion to
degrees. -/
def Command.deltaYawDeg (m : MathOracle) (s : CommandState)
    (td : TelemetryData) : ℚ :=
  let targetYawRad := m.atan2 (s.target.y - td.y) (s.target.x - td.x)
  let deltaYawRad0 := targetYawRad - td.yaw
  let deltaYawRad := m.atan2 (m.sin deltaYawRad0) (m.cos deltaYawRad0)
  m.degrees deltaYawRad

/-- The yaw-adjustment tail of `Command.run`, reached when no altitude
command was returned: if the normalized yaw error exceeds the threshold,
attempt the yaw send (`yawSendOk` is its outcome); on success return the
yaw-change message, on a raised error log and fall through to return None. -/
def Command.yawPhase (m : MathOracle) (yawSendOk : Bool) (s : CommandState)
    (td : TelemetryData) : Option CommandMsg × List SendEvent :=
  let deltaYawDeg := Command.deltaYawDeg m s td
  if Command.yawThresholdDeg < |deltaYawDeg| then
    if yawSendOk then
      (some (.changeYaw deltaYawDeg), [.yawEvaluated, .yawSend true])
    else
      (none, [.yawEvaluated, .yawSend false])
  else
    (none, [.yawEvaluated])

/-- Embedding of `Command.run`. `altSendOk`/`yawSendOk` are the outcomes of
the two possible `command_long_send` calls (`false` = raised OSError/MAVLink
error, caught and logged in the source). The average-velocity block only
reads fields and logs, so it contributes no state change here. Returns the
value of `run`, the updated instance state, and the trace of send attempts. -/
def Command.run (m : MathOracle) (altSendOk yawSendOk : Bool)
    (s : CommandState) (td : TelemetryData) :
    Option CommandMsg × CommandState × List SendEvent :=
  let s1 : CommandState :=
    if s.startPosition = none then
      { s with startPosition := some ⟨td.x, td.y, td.z⟩ }
    else s
  let s2 : CommandState := { s1 with previousTelemetryData := some td }
  let deltaAltitude := s2.target.z - td.z
  if Command.altitudeThreshold < |deltaAltitude| then
    if altSendOk then
      (some (.changeAltitude deltaAltitude), s2, [.altSend true])
    else
      let (r, evs) := Command.yawPhase m yawSendOk s2 td
      (r, s2, .altSend false :: evs)
  else
    let (r, evs) := Command.yawPhase m yawSendOk s2 td
    (r, s2, evs)

/-! ### Factories (the private-key create pattern)

Each domain class gates `__init__` behind a module-private key and exposes a
classmethod `create` that calls `__init__` with the key inside a
`try/except (OSError, MAVError)` returning `(True, instance)` or
`(False, None)`. An AssertionError from a wrong key is not among the caught
classes, so it would escape `create`; `create` always passes the right key.
Keys are embedded as natural-number tokens, `0` being the class's private
key object. -/

/-- Exceptions `__init__` can raise in this model: the key assertion failing,
or a protocol error from the constructor body (the class the source guards
against in `create`). -/
inductive InitException where
  | assertionError
  | proto (e : ProtoErr)
deriving DecidableEq, Repr

/-- Private key object of Command. -/
def Command.privateKey : ℕ := 0

/-- Embedding of `Command.__init__`: assert the key, then build the state.
`raised` models the constructor body raising an OSError/MAVLink error (the
case `create` guards against). -/
def Command.init (key : ℕ) (target : Position) (now : ℚ)
    (raised : Option ProtoErr) : Except InitException CommandState :=
  if key ≠ Command.privateKey then .error .assertionError
  else
    match raised with
    | some e => .error (.proto e)
    | none => .ok (Command.initState target now)

/-- Embedding of `Command.create`: call `__init__` with the private key,
catch OSError/MAVLink errors as `(False, None)`, return `(True, instance)`
otherwise. Any other exception (an AssertionError) would escape as `.error`. -/
def Command.create (target : Position) (now : ℚ) (raised : Option ProtoErr) :
    Except InitException (Bool × Option CommandState) :=
  match Command.init Command.privateKey target now raised with
  | .ok s => .ok (true, some s)
  | .error (.proto _) => .ok (false, none)
  | .error .assertionError => .error .assertionError

/-- Private key object of HeartbeatReceiver. -/
def HeartbeatReceiver.privateKey : ℕ := 0

/-- Embedding of `HeartbeatReceiver.__init__`. -/
def HeartbeatReceiver.init (key : ℕ) (now : ℚ) (raised : Option ProtoErr) :
    Except InitException HeartbeatReceiverState :=
  if key ≠ HeartbeatReceiver.privateKey then .error .assertionError
  else
    match raised with
    | some e => .error (.proto e)
    | none => .ok (HeartbeatReceiver.initState now)

/-- Embedding of `HeartbeatReceiver.create`. -/
def HeartbeatReceiver.create (now : ℚ) (raised : Option ProtoErr) :
    Except InitException (Bool × Option HeartbeatReceiverState) :=
  match HeartbeatReceiver.init HeartbeatReceiver.privateKey now raised with
  | .ok s => .ok (true, some s)
  | .error (.proto _) => .ok (false, none)
  | .error .assertionError => .error .assertionError

/-- Instance state of HeartbeatSender: only the external connection and
logger handles, so no embedded fields. -/
structure HeartbeatSenderState where
deriving DecidableEq, Repr

/-- Private key object of HeartbeatSender. -/
def HeartbeatSender.privateKey : ℕ := 0

/-- Embedding of `HeartbeatSender.__init__`. -/
def HeartbeatSender.init (key : ℕ) (raised : Option ProtoErr) :
    Except InitException HeartbeatSenderState :=
  if key ≠ HeartbeatSender.privateKey then .error .assertionError
  else
    match raised with
    | some e => .error (.proto e)
    | none => .ok {}

/-- Embedding of `HeartbeatSender.create`. -/
def HeartbeatSender.create (raised : Option ProtoErr) :
    Except InitException (Bool × Option HeartbeatSenderState) :=
  match HeartbeatSender.init HeartbeatSender.privateKey raised with
  | .ok s => .ok (true, some s)
  | .error (.proto _) => .ok (false, none)
  | .error .assertionError => .error .assertionError

/-- Private key object of Telemetry. -/
def Telemetry.privateKey : ℕ := 0

/-- Embedding of `Telemetry.__init__`. -/
def Telemetry.init (key : ℕ) (raised : Option ProtoErr) :
    Except InitException TelemetryState :=
  if key ≠ Telemetry.privateKey then .error .assertionError
  else
    match raised with
    | some e => .error (.proto e)
    | none => .ok Telemetry.initState

/-- Embedding of `Telemetry.create`. -/
def Telemetry.create (raised : Option ProtoErr) :
    Except InitException (Bool × Option TelemetryState) :=
  match Telemetry.init Telemetry.privateKey raised with
  | .ok s => .ok (true, some s)
  | .error (.proto _) => .ok (false, none)
  | .error .assertionError => .error .assertionError

/-! ### Worker bodies
(src/modules/command/command_worker.py,
 src/modules/telemetry/telemetry_worker.py,
 src/modules/heartbeat/heartbeat_receiver_worker.py) -/

/-- Observable actions a worker body performs, recorded as a trace. Queue
operations carry their blocking/timeout parameters as written in the source. -/
inductive WorkerOp where
  | printMsg (msg : String)
  | logInfo (msg : String)
  | logWarning (msg : String)
  | logError (msg : String)
  | queueGet (timeout : Option ℚ)
  | queuePut
  | sleep (seconds : ℚ)
deriving DecidableEq, Repr

/-- Whether the action touches a channel. -/
def WorkerOp.isChannelOp : WorkerOp → Bool
  | .queueGet _ => true
  | .queuePut => true
  | _ => false

/-- How one iteration of a steady-state worker loop ends: go around again,
break out of the loop, or let an exception escape the worker body. -/
inductive StepResult where
  | next
  | breakLoop
  | propagate (e : ProtoErr)
deriving DecidableEq, Repr

/-- Outcome of `input_queue.queue.get(timeout=1.0)` in command_worker: a
TelemetryData item, a None sentinel, the queue.Empty exception after the
timeout, or a raised OSError/MAVLink error from the queue proxy. -/
inductive CmdGetOutcome where
  | item (td : TelemetryData)
  | noneItem
  | empty
  | protoError (e : ProtoErr)
deriving DecidableEq, Repr

/-- Outcome of a `queue.put` call: returned normally or raised an
OSError/MAVLink error. -/
inductive PutOutcome where
  | ok
  | protoError (e : ProtoErr)
deriving DecidableEq, Repr

/-- One iteration of the steady-state loop of command_worker (the body of
`while not controller.is_exit_requested()` after `check_pause`): get with a
1.0 second timeout; break on a None sentinel; run the Command instance; put
a returned command string; queue.Empty logs and breaks; OSError/MAVLink
errors are logged and the loop goes around. Returns how the iteration ends,
the updated Command state, and the trace of actions. The handling of a
dequeued item is split out: given the result of `command_instance.run`, put
the command string when one was returned (the put outcome models the
proxy call raising). -/
def commandWorkerHandleItem
    (runResult : Option CommandMsg × CommandState × List SendEvent)
    (putOutcome : PutOutcome) : StepResult × CommandState × List WorkerOp :=
  match runResult.1 with
  | some _ =>
      match putOutcome with
      | .ok => (.next, runResult.2.1, [.queueGet (some 1), .queuePut])
      | .protoError _ =>
          (.next, runResult.2.1,
            [.queueGet (some 1), .logError "Error in command worker loop"])
  | none => (.next, runResult.2.1, [.queueGet (some 1)])

def commandWorkerStep (m : MathOracle) (altSendOk yawSendOk : Bool)
    (getOutcome : CmdGetOutcome) (putOutcome : PutOutcome)
    (s : CommandState) : StepResult × CommandState × List WorkerOp :=
  match getOutcome with
  | .empty =>
      (.breakLoop, s,
        [.queueGet (some 1), .logInfo "Queue is empty. All tasks completed."])
  | .protoError _ =>
      (.next, s, [.queueGet (some 1), .logError "Error in command worker loop"])
  | .noneItem => (.breakLoop, s, [.queueGet (some 1)])
  | .item td =>
      commandWorkerHandleItem (Command.run m altSendOk yawSendOk s td)
        putOutcome

/-- One iteration of the steady-state loop of telemetry_worker: run the
Telemetry instance (`runOutcome` carries its value, or the OSError/MAVLink
error it raised); put a produced TelemetryData, log a warning when none was
produced; a raised error is logged and the loop goes around; finally sleep
0.01 seconds (outside the try block, so it runs in every case). -/
def telemetryWorkerStep (runOutcome : Except ProtoErr (Option TelemetryData))
    (putOutcome : PutOutcome) : StepResult × List WorkerOp :=
  match runOutcome with
  | .error _ =>
      (.next, [.logError "Error in telemetry worker loop", .sleep (1 / 100)])
  | .ok (some _) =>
      match putOutcome with
      | .ok =>
          (.next,
            [.logInfo "Telemetry data received and processed.", .queuePut,
              .sleep (1 / 100)])
      | .protoError _ =>
          (.next,
            [.logInfo "Telemetry data received and processed.",
              .logError "Error in telemetry worker loop", .sleep (1 / 100)])
  | .ok none =>
      (.next,
        [.logWarning "Failed to receive telemetry data - timeout or missing messages",
          .sleep (1 / 100)])

/-- One iteration of the steady-state loop of heartbeat_receiver_worker: run
the HeartbeatReceiver instance, put the returned status, sleep 1 second.
The loop has no try/except of its own, so a put failure would escape;
HeartbeatReceiver.run never raises (it catches internally). -/
def heartbeatReceiverWorkerStep (s : HeartbeatReceiverState)
    (outcome : RecvOutcome) (now : ℚ) (putOutcome : PutOutcome) :
    StepResult × HeartbeatReceiverState × List WorkerOp :=
  let (_, s2) := HeartbeatReceiver.run s outcome now
  match putOutcome with
  | .ok => (.next, s2, [.queuePut, .sleep 1])
  | .protoError e => (.propagate e, s2, [])

/-- How a worker body's setup phase ends: proceed into the steady-state
loop, or return from the body at once. -/
inductive SetupResult where
  | enterLoop
  | returnEarly
deriving DecidableEq, Repr

/-- Setup phase of command_worker before its loop: create the per-worker
logger, then the Command instance; either failure returns from the body. -/
def commandWorkerSetup (loggerOk createOk : Bool) :
    SetupResult × List WorkerOp :=
  if !loggerOk then
    (.returnEarly, [.printMsg "ERROR: Worker failed to create logger"])
  else if !createOk then
    (.returnEarly,
      [.logInfo "Logger initialized",
        .logError "Failed to create Command instance."])
  else (.enterLoop, [.logInfo "Logger initialized"])

/-- Setup phase of telemetry_worker before its loop. -/
def telemetryWorkerSetup (loggerOk createOk : Bool) :
    SetupResult × List WorkerOp :=
  if !loggerOk then
    (.returnEarly, [.printMsg "ERROR: Worker failed to create logger"])
  else if !createOk then
    (.returnEarly,
      [.logInfo "Logger initialized",
        .logError "Failed to create telemetry instance."])
  else (.enterLoop, [.logInfo "Logger initialized"])

/-- Setup phase of heartbeat_receiver_worker before its loop. -/
def heartbeatReceiverWorkerSetup (loggerOk createOk : Bool) :
    SetupResult × List WorkerOp :=
  if !loggerOk then
    (.returnEarly, [.printMsg "ERROR: Worker failed to create logger"])
  else if !createOk then
    (.returnEarly,
      [.logInfo "Logger initialized",
        .logError "Failed to create HeartbeatReceiver instance."])
  else (.enterLoop, [.logInfo "Logger initialized"])

/-! ### Orchestrator (src/bootcamp_main.py, function main) -/

/-- Environment of one execution of `main`: the outcomes of its fallible
setup calls, how many messages the main work loop drains with get_nowait
while running, and how many messages remain in each of the four output
queues when shutdown begins. `connectionOk = false` models
`mavutil.mavlink_connection` raising (for example ConnectionRefusedError);
`main` wraps that call in no handler. -/
structure MainEnv where
  configOk : Bool
  loggerOk : Bool
  connectionOk : Bool
  hbSenderPropsOk : Bool
  hbReceiverPropsOk : Bool
  telemetryPropsOk : Bool
  commandPropsOk : Bool
  managerOk : Bool
  mainLoopReads : ℕ
  queueSizes : List ℕ
deriving DecidableEq, Repr

/-- Milestone events of `main` in execution order. `mainWorkGet` is a
get_nowait in the main work loop before shutdown; `drainGet` is one get of
the shutdown drain of queue `queueIdx`. -/
inductive MainEvent where
  | cleanLogs
  | startWorkers
  | mainWorkGet
  | requestExitAll
  | drainGet (queueIdx : ℕ)
  | joinAll
  | resetController
deriving DecidableEq, Repr

/-- Shutdown drain trace: `for output_queue in all_queues: while not empty:
get()` — queue `i` contributes one get per message remaining in it. -/
def drainTrace (queueSizes : List ℕ) : List MainEvent :=
  (queueSizes.enum).flatMap fun p => List.replicate p.2 (.drainGet p.1)

/-- Embedding of `main`. Returns `.error` when an exception escapes (the
unguarded connection call), otherwise `.ok` with the return code and the
event trace. Each failed check returns -1; the clean path runs the workers,
then requests exit, drains all queues, joins, resets, and returns 0. -/
def main (env : MainEnv) : Except ProtoErr (Int × List MainEvent) :=
  if !env.configOk then .ok (-1, [.cleanLogs])
  else if !env.loggerOk then .ok (-1, [.cleanLogs])
  else if !env.connectionOk then .error .osError
  else if !env.hbSenderPropsOk then .ok (-1, [.cleanLogs])
  else if !env.hbReceiverPropsOk then .ok (-1, [.cleanLogs])
  else if !env.telemetryPropsOk then .ok (-1, [.cleanLogs])
  else if !env.commandPropsOk then .ok (-1, [.cleanLogs])
  else if !env.managerOk then .ok (-1, [.cleanLogs])
  else
    .ok (0,
      [.cleanLogs, .startWorkers] ++
        List.replicate env.mainLoopReads .mainWorkGet ++
        [.requestExitAll] ++ drainTrace env.queueSizes ++
        [.joinAll, .resetController])

/-! ## Theorems -/

/-- Claim C1, counterexample. The claim states that every channel operation in
the steady-state loops of command_worker, heartbeat_receiver_worker and
telemetry_worker is non-blocking or timeout-bounded. It is false: the put in
each loop is a blocking put with no timeout (`output_queue.queue.put(...)`). -/
theorem c1_all_ops_bounded_counterexample :
    ¬ (∀ op ∈ allWorkerLoopChanOps, op.bounded = true) := by decide

/-- Claim C1, amended: in the steady-state loops of command_worker,
heartbeat_receiver_worker and telemetry_worker, every get on an input channel
is non-blocking or timeout-bounded (the only one, command_worker's, blocks
with a 1.0 second timeout), but every put on an output channel is a blocking
put with no timeout. -/
theorem c1_gets_bounded_puts_blocking :
    (∀ op ∈ allWorkerLoopChanOps, op.isGet = true → op.bounded = true) ∧
    (∀ op ∈ allWorkerLoopChanOps, op.isGet = false →
      op = ChanOp.put true none) := by decide

/-- Claim C1 amended theorem, witness: the get of command_worker is bounded. -/
theorem c1_gets_bounded_puts_blocking_witness :
    ChanOp.bounded (ChanOp.get true (some 1)) = true :=
  c1_gets_bounded_puts_blocking.1 (ChanOp.get true (some 1)) (by decide)
    (by decide)

/-- Claim C2: whenever `Telemetry.run` starts at a wall-clock time of at
least 1.0 seconds since the epoch, the guard `while start_time < 1.0` fails
on the first check, so run returns None without receiving any message and
without touching the stored last position and attitude — for any iteration
budget and any pending message stream. -/
theorem c2_telemetry_run_late_clock_returns_none (startTime : ℚ) (fuel : ℕ)
    (msgs : List (Option MavMsg)) (s : TelemetryState) (h : 1 ≤ startTime) :
    Telemetry.run startTime fuel msgs s = some (none, s, msgs) := by
  unfold Telemetry.run Telemetry.runLoop
  rw [if_neg (not_lt.mpr h)]

/-- Claim C2 witness: at start time 2.0 with a pending attitude message, run
returns None, consumes nothing, and leaves the state unchanged. -/
theorem c2_telemetry_run_late_clock_witness :
    Telemetry.run 2 5 [some (.attitude ⟨0, 0, 0, 0, 0, 0, 0⟩)]
        Telemetry.initState =
      some (none, Telemetry.initState,
        [some (.attitude ⟨0, 0, 0, 0, 0, 0, 0⟩)]) :=
  c2_telemetry_run_late_clock_returns_none 2 5
    [some (.attitude ⟨0, 0, 0, 0, 0, 0, 0⟩)] Telemetry.initState (by norm_num)

/-- Claim C8: each factory returns a success/value pair — `(true, instance)`
when the constructor body completes and `(false, none)` when it raises an
OSError/MAVLink error, which `create` never lets escape (its result is `.ok`
for every outcome) — and calling `__init__` directly with anything other
than the class's private key fails the key assertion. -/
theorem c8_factories_fallible (target : Position) (now : ℚ) :
    (Command.create target now none =
        .ok (true, some (Command.initState target now)) ∧
      ∀ e, Command.create target now (some e) = .ok (false, none)) ∧
    (HeartbeatReceiver.create now none =
        .ok (true, some (HeartbeatReceiver.initState now)) ∧
      ∀ e, HeartbeatReceiver.create now (some e) = .ok (false, none)) ∧
    (HeartbeatSender.create none = .ok (true, some {}) ∧
      ∀ e, HeartbeatSender.create (some e) = .ok (false, none)) ∧
    (Telemetry.create none = .ok (true, some Telemetry.initState) ∧
      ∀ e, Telemetry.create (some e) = .ok (false, none)) ∧
    (∀ k, k ≠ Command.privateKey → ∀ r,
      Command.init k target now r = .error .assertionError) ∧
    (∀ k, k ≠ HeartbeatReceiver.privateKey → ∀ r,
      HeartbeatReceiver.init k now r = .error .assertionError) ∧
    (∀ k, k ≠ HeartbeatSender.privateKey → ∀ r,
      HeartbeatSender.init k r = .error .assertionError) ∧
    (∀ k, k ≠ Telemetry.privateKey → ∀ r,
      Telemetry.init k r = .error .assertionError) := by
  refine ⟨⟨rfl, fun e => rfl⟩, ⟨rfl, fun e => rfl⟩, ⟨rfl, fun e => rfl⟩,
    ⟨rfl, fun e => rfl⟩, ?_, ?_, ?_, ?_⟩ <;>
    intro k hk r <;>
    simp [Command.init, HeartbeatReceiver.init, HeartbeatSender.init,
      Telemetry.init, hk]

/-- Claim C8 witness: constructing Command directly with a wrong key token
fails the assertion. -/
theorem c8_factories_fallible_witness :
    Command.init 1 ⟨0, 0, 0⟩ 0 none = .error .assertionError :=
  (c8_factories_fallible ⟨0, 0, 0⟩ 0).2.2.2.2.1 1 (by decide) none

/-- The threshold check never changes the missing count. -/
theorem HeartbeatReceiver.thresholdCheck_missingCount
    (s : HeartbeatReceiverState) :
    (HeartbeatReceiver.thresholdCheck s).missingCount = s.missingCount := by
  unfold HeartbeatReceiver.thresholdCheck
  split
  · split <;> rfl
  · rfl

/-- The threshold check either keeps the status or sets it to Disconnected,
the latter only when the count has reached the threshold. -/
theorem HeartbeatReceiver.thresholdCheck_status (s : HeartbeatReceiverState) :
    (HeartbeatReceiver.thresholdCheck s).status = s.status ∨
      ((HeartbeatReceiver.thresholdCheck s).status = "Disconnected" ∧
        HeartbeatReceiver.maxThreshold ≤ s.missingCount) := by
  unfold HeartbeatReceiver.thresholdCheck
  split
  · split
    · exact Or.inr ⟨rfl, by assumption⟩
    · exact Or.inl rfl
  · exact Or.inl rfl

/-- Invariants of the threshold check applied to an intermediate state `t`
whose status agrees with the pre-call state `s` and whose count has not
decreased. -/
theorem HeartbeatReceiver.thresholdCheck_invariants
    (s t : HeartbeatReceiverState) (hstat : t.status = s.status)
    (hmc : s.missingCount ≤ t.missingCount)
    (hstatus : s.status = "Connected" ∨ s.status = "Disconnected") :
    ((HeartbeatReceiver.thresholdCheck t).status = "Connected" ∨
      (HeartbeatReceiver.thresholdCheck t).status = "Disconnected") ∧
    ((HeartbeatReceiver.thresholdCheck t).status = "Disconnected" →
      s.status = "Disconnected" ∨
        HeartbeatReceiver.maxThreshold ≤
          (HeartbeatReceiver.thresholdCheck t).missingCount) ∧
    ¬ (HeartbeatReceiver.thresholdCheck t).missingCount < s.missingCount := by
  rcases HeartbeatReceiver.thresholdCheck_status t with h | ⟨h, hth⟩
  · rw [HeartbeatReceiver.thresholdCheck_missingCount]
    refine ⟨by rw [h, hstat]; exact hstatus, ?_, by omega⟩
    intro hd
    rw [h, hstat] at hd
    exact Or.inl hd
  · rw [HeartbeatReceiver.thresholdCheck_missingCount]
    exact ⟨Or.inr h, fun _ => Or.inr hth, by omega⟩

/-- Claim C10: `HeartbeatReceiver.run` returns "Connected" or "Disconnected"
whenever the stored status is one of those (as it is from `__init__` on);
a received HEARTBEAT resets the missing-count to 0 and sets the status to
Connected; the status becomes Disconnected only when the missing-count has
reached the threshold of 3; and the missing-count never decreases except by
a received heartbeat. -/
theorem c10_heartbeat_receiver_run_invariants (s : HeartbeatReceiverState)
    (outcome : RecvOutcome) (now : ℚ)
    (hstatus : s.status = "Connected" ∨ s.status = "Disconnected") :
    ((HeartbeatReceiver.run s outcome now).1 = "Connected" ∨
      (HeartbeatReceiver.run s outcome now).1 = "Disconnected") ∧
    (outcome = .heartbeat →
      (HeartbeatReceiver.run s outcome now).2.missingCount = 0 ∧
      (HeartbeatReceiver.run s outcome now).2.status = "Connected") ∧
    ((HeartbeatReceiver.run s outcome now).2.status = "Disconnected" →
      s.status = "Disconnected" ∨
        HeartbeatReceiver.maxThreshold ≤
          (HeartbeatReceiver.run s outcome now).2.missingCount) ∧
    ((HeartbeatReceiver.run s outcome now).2.missingCount < s.missingCount →
      outcome = .heartbeat) := by
  cases outcome with
  | protoError e =>
      refine ⟨hstatus, ?_, fun h => Or.inl h, ?_⟩
      · intro h
        simp at h
      · intro h
        simp [HeartbeatReceiver.run] at h
  | heartbeat =>
      simp [HeartbeatReceiver.run, HeartbeatReceiver.thresholdCheck,
        HeartbeatReceiver.maxThreshold]
  | noMessage =>
      by_cases h1 : (1 : ℚ) ≤ now - s.lastHeartbeatTime
      · simp only [HeartbeatReceiver.run, if_pos h1]
        obtain ⟨g1, g3, g4⟩ :=
          HeartbeatReceiver.thresholdCheck_invariants s
            { s with missingCount := s.missingCount + 1 } rfl
            (Nat.le_succ _) hstatus
        refine ⟨g1, ?_, g3, ?_⟩
        · intro h
          simp at h
        · intro h
          exact absurd h g4
      · simp only [HeartbeatReceiver.run, if_neg h1]
        obtain ⟨g1, g3, g4⟩ :=
          HeartbeatReceiver.thresholdCheck_invariants s s rfl le_rfl hstatus
        refine ⟨g1, ?_, g3, ?_⟩
        · intro h
          simp at h
        · intro h
          exact absurd h g4

/-- Claim C10 witness: from the initial state, receiving a heartbeat returns
Connected with the missing-count reset. -/
theorem c10_heartbeat_receiver_run_invariants_witness :
    (HeartbeatReceiver.run (HeartbeatReceiver.initState 0) .heartbeat 1).2.missingCount = 0 ∧
    (HeartbeatReceiver.run (HeartbeatReceiver.initState 0) .heartbeat 1).2.status = "Connected" :=
  (c10_heartbeat_receiver_run_invariants (HeartbeatReceiver.initState 0)
    .heartbeat 1 (Or.inr rfl)).2.1 rfl

/-- The normalized yaw error depends only on the target stored in the state
(and the telemetry sample), so state updates that keep the target keep it. -/
theorem Command.deltaYawDeg_congr (m : MathOracle) (s t : CommandState)
    (h : t.target = s.target) (td : TelemetryData) :
    Command.deltaYawDeg m t td = Command.deltaYawDeg m s td := by
  simp [Command.deltaYawDeg, h]

/-- Exhaustive case analysis of the yaw-adjustment tail of `Command.run`. -/
theorem Command.yawPhase_cases (m : MathOracle) (yawSendOk : Bool)
    (s : CommandState) (td : TelemetryData) :
    (Command.yawThresholdDeg < |Command.deltaYawDeg m s td| ∧
      yawSendOk = true ∧
      Command.yawPhase m yawSendOk s td =
        (some (.changeYaw (Command.deltaYawDeg m s td)),
          [.yawEvaluated, .yawSend true])) ∨
    (Command.yawThresholdDeg < |Command.deltaYawDeg m s td| ∧
      yawSendOk = false ∧
      Command.yawPhase m yawSendOk s td =
        (none, [.yawEvaluated, .yawSend false])) ∨
    (¬ Command.yawThresholdDeg < |Command.deltaYawDeg m s td| ∧
      Command.yawPhase m yawSendOk s td = (none, [.yawEvaluated])) := by
  by_cases h : Command.yawThresholdDeg < |Command.deltaYawDeg m s td|
  · cases yawSendOk
    · exact Or.inr (Or.inl ⟨h, rfl, by simp [Command.yawPhase, h]⟩)
    · exact Or.inl ⟨h, rfl, by simp [Command.yawPhase, h]⟩
  · exact Or.inr (Or.inr ⟨h, by simp [Command.yawPhase, h]⟩)

/-- Claim C9: `Command.run` issues at most one command per call and checks
altitude first: with the altitude deviation above the 0.5 m threshold and a
successful send it returns the altitude-change message without reaching the
yaw branch; otherwise it returns the yaw-change message exactly when the
normalized yaw error exceeds 5 degrees and that send succeeds; in every
other case (both deviations within threshold, or every attempted send
raising) it returns None. -/
theorem c9_command_run_priority (m : MathOracle) (altSendOk yawSendOk : Bool)
    (s : CommandState) (td : TelemetryData) :
    ((Command.altitudeThreshold < |s.target.z - td.z| ∧ altSendOk = true) →
      (Command.run m altSendOk yawSendOk s td).1 =
        some (.changeAltitude (s.target.z - td.z)) ∧
      (Command.run m altSendOk yawSendOk s td).2.2 =
        [SendEvent.altSend true] ∧
      SendEvent.yawEvaluated ∉ (Command.run m altSendOk yawSendOk s td).2.2) ∧
    (¬ (Command.altitudeThreshold < |s.target.z - td.z| ∧ altSendOk = true) →
      ((Command.yawThresholdDeg < |Command.deltaYawDeg m s td| ∧
          yawSendOk = true) →
        (Command.run m altSendOk yawSendOk s td).1 =
          some (.changeYaw (Command.deltaYawDeg m s td))) ∧
      (¬ (Command.yawThresholdDeg < |Command.deltaYawDeg m s td| ∧
          yawSendOk = true) →
        (Command.run m altSendOk yawSendOk s td).1 = none)) ∧
    List.countP (fun e => SendEvent.isIssued e)
      (Command.run m altSendOk yawSendOk s td).2.2 ≤ 1 := by
  simp only [Command.run]
  set s1 := if s.startPosition = none then
      { s with startPosition := some ⟨td.x, td.y, td.z⟩ } else s with hs1
  have ht1 : s1.target = s.target := by
    rw [hs1]
    split <;> rfl
  set s2 : CommandState := { s1 with previousTelemetryData := some td } with hs2
  have ht2 : s2.target = s.target := ht1
  have hdy : Command.deltaYawDeg m s2 td = Command.deltaYawDeg m s td :=
    Command.deltaYawDeg_congr m s s2 ht2 td
  rw [ht2]
  rcases Command.yawPhase_cases m yawSendOk s2 td with
    ⟨hy, hys, hyeq⟩ | ⟨hy, hys, hyeq⟩ | ⟨hy, hyeq⟩ <;>
  by_cases halt : Command.altitudeThreshold < |s.target.z - td.z| <;>
  cases altSendOk <;>
  rw [hdy] at hy <;>
  first
    | (rw [if_pos halt]
       simp_all [List.countP_cons, SendEvent.isIssued])
    | (rw [if_neg halt]
       simp_all [List.countP_cons, SendEvent.isIssued])

/-- A concrete oracle for witnesses: every trigonometric routine returns 0. -/
def MathOracle.zero : MathOracle :=
  { atan2 := fun _ _ => 0, sin := fun _ => 0, cos := fun _ => 0,
    degrees := fun _ => 0 }

/-- A concrete all-zero telemetry sample for witnesses. -/
def sampleTelemetryData : TelemetryData :=
  ⟨0, 0, 0, 0, 0, 0, 0, 0, 0, 0, 0, 0, 0⟩

/-- Claim C9 witness: with the target 30 m above the sample, the altitude
branch fires and run returns the altitude-change message. -/
theorem c9_command_run_priority_witness :
    (Command.run MathOracle.zero true true (Command.initState ⟨10, 20, 30⟩ 0)
        sampleTelemetryData).1 =
      some (.changeAltitude
        ((Command.initState ⟨10, 20, 30⟩ 0).target.z -
          sampleTelemetryData.z)) :=
  ((c9_command_run_priority MathOracle.zero true true
    (Command.initState ⟨10, 20, 30⟩ 0) sampleTelemetryData).1
    ⟨by norm_num [Command.initState, Command.altitudeThreshold,
      sampleTelemetryData], rfl⟩).1

/-- Claim C3, counterexample. The claim states that when
`input_queue.queue.get(timeout=1.0)` reports empty, command_worker's loop
continues to the next iteration. It is false: the `except queue.Empty`
handler logs and breaks out of the loop. -/
theorem c3_command_worker_empty_continues_counterexample :
    (commandWorkerStep MathOracle.zero true true .empty .ok
        (Command.initState ⟨10, 20, 30⟩ 0)).1 = StepResult.breakLoop ∧
      StepResult.breakLoop ≠ StepResult.next := by
  exact ⟨rfl, by decide⟩

/-- Claim C3, amended: a timed-out/empty read is still handled, not raised —
but command_worker treats it as the end of its work: it logs an
informational message and breaks out of the steady-state loop (after which
the body returns normally), rather than continuing to the next iteration. -/
theorem c3_command_worker_empty_logs_and_breaks (m : MathOracle)
    (altSendOk yawSendOk : Bool) (p : PutOutcome) (s : CommandState) :
    commandWorkerStep m altSendOk yawSendOk .empty p s =
      (.breakLoop, s,
        [.queueGet (some 1),
          .logInfo "Queue is empty. All tasks completed."]) := rfl

/-- Unfolding lemma: the empty-queue iteration of command_worker. -/
theorem commandWorkerStep_empty_eq (m : MathOracle) (a y : Bool)
    (p : PutOutcome) (s : CommandState) :
    commandWorkerStep m a y .empty p s =
      (.breakLoop, s,
        [.queueGet (some 1),
          .logInfo "Queue is empty. All tasks completed."]) := rfl

/-- Unfolding lemma: the None-sentinel iteration of command_worker. -/
theorem commandWorkerStep_noneItem_eq (m : MathOracle) (a y : Bool)
    (p : PutOutcome) (s : CommandState) :
    commandWorkerStep m a y .noneItem p s =
      (.breakLoop, s, [.queueGet (some 1)]) := rfl

/-- Unfolding lemma: the iteration of command_worker whose get raised an
OSError/MAVLink error. -/
theorem commandWorkerStep_protoError_eq (m : MathOracle) (a y : Bool)
    (e : ProtoErr) (p : PutOutcome) (s : CommandState) :
    commandWorkerStep m a y (.protoError e) p s =
      (.next, s,
        [.queueGet (some 1),
          .logError "Error in command worker loop"]) := rfl

/-- Unfolding lemma: the iteration of command_worker that dequeued an item. -/
theorem commandWorkerStep_item_eq (m : MathOracle) (a y : Bool)
    (td : TelemetryData) (p : PutOutcome) (s : CommandState) :
    commandWorkerStep m a y (.item td) p s =
      commandWorkerHandleItem (Command.run m a y s td) p := rfl

/-- An item-handling iteration of command_worker always continues the loop. -/
theorem commandWorkerHandleItem_next
    (r : Option CommandMsg × CommandState × List SendEvent)
    (p : PutOutcome) : (commandWorkerHandleItem r p).1 = .next := by
  rcases r with ⟨cmd, s2, tr⟩
  cases cmd <;> cases p <;> rfl

/-- Claim C6: a raised OSError/MAVLink error inside the steady-state loop of
command_worker or telemetry_worker is caught and logged and the loop goes to
its next iteration; inside `HeartbeatReceiver.run` it is caught, the state
is left unchanged and the stored status returned; and no input whatsoever
makes the command or telemetry loop body propagate an exception. -/
theorem c6_transient_errors_contained (m : MathOracle)
    (altSendOk yawSendOk : Bool) (e : ProtoErr) (p : PutOutcome)
    (g : CmdGetOutcome) (ro : Except ProtoErr (Option TelemetryData))
    (s : CommandState) (hs : HeartbeatReceiverState) (now : ℚ) :
    ((commandWorkerStep m altSendOk yawSendOk (.protoError e) p s).1 =
        .next ∧
      WorkerOp.logError "Error in command worker loop" ∈
        (commandWorkerStep m altSendOk yawSendOk (.protoError e) p s).2.2) ∧
    ((telemetryWorkerStep (.error e) p).1 = .next ∧
      WorkerOp.logError "Error in telemetry worker loop" ∈
        (telemetryWorkerStep (.error e) p).2) ∧
    HeartbeatReceiver.run hs (.protoError e) now = (hs.status, hs) ∧
    (∀ e2, (commandWorkerStep m altSendOk yawSendOk g p s).1 ≠
      .propagate e2) ∧
    (∀ e2, (telemetryWorkerStep ro p).1 ≠ .propagate e2) := by
  constructor
  · rw [commandWorkerStep_protoError_eq]
    exact ⟨rfl, by simp⟩
  constructor
  · exact ⟨rfl, by simp [telemetryWorkerStep]⟩
  constructor
  · rfl
  constructor
  · intro e2
    cases g with
    | empty => rw [commandWorkerStep_empty_eq]; simp
    | protoError e3 => rw [commandWorkerStep_protoError_eq]; simp
    | noneItem => rw [commandWorkerStep_noneItem_eq]; simp
    | item td =>
        rw [commandWorkerStep_item_eq, commandWorkerHandleItem_next]
        simp
  · intro e2
    rcases ro with re | ov
    · simp [telemetryWorkerStep]
    · cases ov <;> cases p <;> simp [telemetryWorkerStep]

/-- Claim C6 witness: command_worker continues after an OSError in its loop. -/
theorem c6_transient_errors_contained_witness :
    (commandWorkerStep MathOracle.zero true true (.protoError .osError) .ok
        (Command.initState ⟨10, 20, 30⟩ 0)).1 = StepResult.next :=
  (c6_transient_errors_contained MathOracle.zero true true .osError .ok
    .empty (.ok none) (Command.initState ⟨10, 20, 30⟩ 0)
    (HeartbeatReceiver.initState 0) 0).1.1

/-- Claim C7: a worker body whose own setup fails — logger creation failing
or the domain create call failing — returns before the steady-state loop
and performs no channel operation, in all three workers. -/
theorem c7_worker_setup_failure_returns_early (loggerOk createOk : Bool)
    (h : loggerOk = false ∨ createOk = false) :
    ((commandWorkerSetup loggerOk createOk).1 = .returnEarly ∧
      ∀ op ∈ (commandWorkerSetup loggerOk createOk).2,
        op.isChannelOp = false) ∧
    ((telemetryWorkerSetup loggerOk createOk).1 = .returnEarly ∧
      ∀ op ∈ (telemetryWorkerSetup loggerOk createOk).2,
        op.isChannelOp = false) ∧
    ((heartbeatReceiverWorkerSetup loggerOk createOk).1 = .returnEarly ∧
      ∀ op ∈ (heartbeatReceiverWorkerSetup loggerOk createOk).2,
        op.isChannelOp = false) := by
  cases loggerOk <;> cases createOk <;>
    first
      | decide
      | simp at h

/-- Claim C7 witness: command_worker with a failed logger returns early. -/
theorem c7_worker_setup_failure_returns_early_witness :
    (commandWorkerSetup false true).1 = SetupResult.returnEarly :=
  (c7_worker_setup_failure_returns_early false true (Or.inl rfl)).1.1

/-- Environment where the connection call fails after configuration and
logger setup succeeded. -/
def connFailEnv : MainEnv :=
  { configOk := true, loggerOk := true, connectionOk := false,
    hbSenderPropsOk := true, hbReceiverPropsOk := true,
    telemetryPropsOk := true, commandPropsOk := true, managerOk := true,
    mainLoopReads := 0, queueSizes := [0, 0, 0, 0] }

/-- Claim C4, counterexample. The claim states that `main` returns a
negative integer on every setup failure path including connection failure.
It is false: `mavutil.mavlink_connection` is called with no result check and
no handler, so a connection failure propagates as an exception and no
integer is returned. -/
theorem c4_main_negative_on_failure_counterexample :
    main connFailEnv = Except.error ProtoErr.osError ∧
      ¬ ∃ n : Int, ∃ tr : List MainEvent,
          main connFailEnv = Except.ok (n, tr) ∧ n < 0 := by
  refine ⟨rfl, ?_⟩
  rintro ⟨n, tr, h, -⟩
  rw [show main connFailEnv = Except.error ProtoErr.osError from rfl] at h
  exact Except.noConfusion h

/-- Claim C4, amended: `main` returns -1 on configuration-load failure, on
main-logger setup failure, and on failure of any create call (each
WorkerProperties.create and WorkerManager.create), and returns 0 on a clean
full run; a connection failure, however, is unchecked and escapes as an
exception instead of producing a return code. -/
theorem c4_main_exit_codes (env : MainEnv) :
    (env.configOk = false → main env = .ok (-1, [.cleanLogs])) ∧
    (env.configOk = true → env.loggerOk = false →
      main env = .ok (-1, [.cleanLogs])) ∧
    (env.configOk = true → env.loggerOk = true → env.connectionOk = false →
      main env = .error .osError) ∧
    (env.configOk = true → env.loggerOk = true → env.connectionOk = true →
      (env.hbSenderPropsOk = false ∨ env.hbReceiverPropsOk = false ∨
        env.telemetryPropsOk = false ∨ env.commandPropsOk = false ∨
        env.managerOk = false) →
      main env = .ok (-1, [.cleanLogs])) ∧
    (env.configOk = true → env.loggerOk = true → env.connectionOk = true →
      env.hbSenderPropsOk = true → env.hbReceiverPropsOk = true →
      env.telemetryPropsOk = true → env.commandPropsOk = true →
      env.managerOk = true →
      main env = .ok (0,
        [.cleanLogs, .startWorkers] ++
          List.replicate env.mainLoopReads .mainWorkGet ++
          [.requestExitAll] ++ drainTrace env.queueSizes ++
          [.joinAll, .resetController])) := by
  obtain ⟨c, l, co, a, b, t, cm, mg, r, q⟩ := env
  cases c <;> cases l <;> cases co <;> cases a <;> cases b <;> cases t <;>
    cases cm <;> cases mg <;> simp [main]

/-- Claim C4 amended theorem, witness: a failed configuration load returns
-1. -/
theorem c4_main_exit_codes_witness :
    main { connFailEnv with configOk := false } =
      Except.ok (-1, [MainEvent.cleanLogs]) :=
  (c4_main_exit_codes { connFailEnv with configOk := false }).1 rfl

/-- Claim C5: on a clean run, the trace of `main` is some prefix of
pre-shutdown events (log cleanup, worker start, main work-loop reads),
then the exit request, then the whole shutdown drain, then the join, then
the controller reset — so no channel is drained before exit is requested,
no join happens before every channel is drained, and the reset comes last. -/
theorem c5_main_shutdown_order (env : MainEnv)
    (h : env.configOk = true ∧ env.loggerOk = true ∧
      env.connectionOk = true ∧ env.hbSenderPropsOk = true ∧
      env.hbReceiverPropsOk = true ∧ env.telemetryPropsOk = true ∧
      env.commandPropsOk = true ∧ env.managerOk = true) :
    ∃ pre : List MainEvent,
      main env = .ok (0,
        pre ++ [.requestExitAll] ++ drainTrace env.queueSizes ++
          [.joinAll, .resetController]) ∧
      (∀ ev ∈ pre, ev = .cleanLogs ∨ ev = .startWorkers ∨
        ev = .mainWorkGet) ∧
      (∀ ev ∈ drainTrace env.queueSizes, ∃ i, ev = .drainGet i) := by
  obtain ⟨h1, h2, h3, h4, h5, h6, h7, h8⟩ := h
  refine ⟨[.cleanLogs, .startWorkers] ++
    List.replicate env.mainLoopReads .mainWorkGet, ?_, ?_, ?_⟩
  · simp [main, h1, h2, h3, h4, h5, h6, h7, h8]
  · intro ev hev
    rcases List.mem_append.mp hev with hm | hm
    · rcases List.mem_cons.mp hm with hc | hc
      · exact Or.inl hc
      · exact Or.inr (Or.inl (List.mem_singleton.mp hc))
    · exact Or.inr (Or.inr (List.eq_of_mem_replicate hm))
  · intro ev hev
    rcases List.mem_flatMap.mp hev with ⟨pair, hp, hev2⟩
    exact ⟨pair.1, List.eq_of_mem_replicate hev2⟩

/-- Environment of a clean run for the witness. -/
def cleanRunEnv : MainEnv :=
  { configOk := true, loggerOk := true, connectionOk := true,
    hbSenderPropsOk := true, hbReceiverPropsOk := true,
    telemetryPropsOk := true, commandPropsOk := true, managerOk := true,
    mainLoopReads := 2, queueSizes := [1, 0, 2, 0] }

/-- Claim C5 witness: the shutdown-ordering shape holds on a concrete clean
run. -/
theorem c5_main_shutdown_order_witness :
    ∃ pre : List MainEvent,
      main cleanRunEnv = .ok (0,
        pre ++ [.requestExitAll] ++ drainTrace cleanRunEnv.queueSizes ++
          [.joinAll, .resetController]) ∧
      (∀ ev ∈ pre, ev = .cleanLogs ∨ ev = .startWorkers ∨
        ev = .mainWorkGet) ∧
      (∀ ev ∈ drainTrace cleanRunEnv.queueSizes, ∃ i, ev = .drainGet i) :=
  c5_main_shutdown_order cleanRunEnv
    ⟨rfl, rfl, rfl, rfl, rfl, rfl, rfl, rfl⟩

end Bootcamp
